import Mathlib

/-!
Verification of the waiting-list manager (`manager.py`) against its
natural-language specification.

The Python source is shallowly embedded below.  Calendar dates are triples
of naturals, timestamps are integers counting seconds since the Unix epoch
(the meaning of the ISO strings the source parses with
`datetime.fromisoformat`), and the floating-point hour arithmetic of the
source is modelled exactly over the rationals.  External effects (the HTTP
responses of the VATSIM API, the roster CSV and the SQLite rows) enter the
embedded functions as explicit arguments; the row mutations the source
performs through the SQLite cursor are modelled as functions from the list
of persisted rows to the new list of rows.
-/

/-- A calendar date as Python's `datetime` carries it (time of day is
dropped: the source only ever compares and stores the `YYYY-MM-DD` part of
the dates modelled by this type). -/
structure Date where
  year : ℕ
  month : ℕ
  day : ℕ
deriving DecidableEq

/-- Gregorian leap-year rule used by Python's `datetime`. -/
def isLeap (y : ℕ) : Bool :=
  (y % 4 == 0 && y % 100 != 0) || (y % 400 == 0)

/-- Length of a month in Python's proleptic Gregorian calendar. -/
def daysInMonth (y m : ℕ) : ℕ :=
  if m = 2 then (if isLeap y then 29 else 28)
  else if m = 4 ∨ m = 6 ∨ m = 9 ∨ m = 11 then 30
  else 31

/-- Successor day, as `datetime + timedelta(days=1)` computes it. -/
def nextDay (d : Date) : Date :=
  if d.day < daysInMonth d.year d.month then ⟨d.year, d.month, d.day + 1⟩
  else if d.month < 12 then ⟨d.year, d.month + 1, 1⟩
  else ⟨d.year + 1, 1, 1⟩

/-- `date + timedelta(days=n)`. -/
def addDays (n : ℕ) (d : Date) : Date := nextDay^[n] d

/-- `date.replace(day=1)`. -/
def clampDay1 (d : Date) : Date := ⟨d.year, d.month, 1⟩

/-- Line 183 of `manager.py`:
`(join_date.replace(day=1) + timedelta(days=32)).replace(day=1)`. -/
def firstOfNextMonth (d : Date) : Date := clampDay1 (addDays 32 (clampDay1 d))

lemma daysInMonth_ge : ∀ y m, 28 ≤ daysInMonth y m := by
  intro y m
  unfold daysInMonth
  split
  · split <;> omega
  · split <;> omega

lemma daysInMonth_le : ∀ y m, daysInMonth y m ≤ 31 := by
  intro y m
  unfold daysInMonth
  split
  · split <;> omega
  · split <;> omega

lemma addDays_within (y m : ℕ) :
    ∀ (k d : ℕ), 1 ≤ d → d + k ≤ daysInMonth y m →
      nextDay^[k] ⟨y, m, d⟩ = ⟨y, m, d + k⟩ := by
  intro k
  induction k with
  | zero => intro d _ _; simp
  | succ k ih =>
    intro d hd hk
    rw [Function.iterate_succ_apply]
    have hstep : nextDay ⟨y, m, d⟩ = ⟨y, m, d + 1⟩ := by
      unfold nextDay
      simp only
      rw [if_pos (by omega)]
    rw [hstep, ih (d + 1) (by omega) (by omega)]
    congr 1
    omega

lemma nextDay_monthEnd (y m : ℕ) :
    nextDay ⟨y, m, daysInMonth y m⟩ =
      if m < 12 then ⟨y, m + 1, 1⟩ else ⟨y + 1, 1, 1⟩ := by
  unfold nextDay
  simp only
  rw [if_neg (by omega)]

/-- Claim C8: for every date `d` (with a valid month number),
`firstOfNextMonth d` — clamp to day 1, add 32 days, clamp to day 1 — is the
first day of the calendar month immediately following `d`'s month, for
every month length (28–31 days, leap or not), and December of year `Y`
rolls over to January 1 of year `Y + 1`. -/
theorem c8_first_of_next_month (y m d : ℕ) (h1 : 1 ≤ m) (h2 : m ≤ 12) :
    firstOfNextMonth ⟨y, m, d⟩ =
      if m < 12 then ⟨y, m + 1, 1⟩ else ⟨y + 1, 1, 1⟩ := by
  have hge := daysInMonth_ge y m
  have hle := daysInMonth_le y m
  set L := daysInMonth y m with hL
  unfold firstOfNextMonth clampDay1 addDays
  simp only
  have hsplit : 32 = (33 - L) + (L - 1) := by omega
  rw [hsplit, Function.iterate_add_apply]
  have hfirst : nextDay^[L - 1] ⟨y, m, 1⟩ = ⟨y, m, L⟩ := by
    have := addDays_within y m (L - 1) 1 (by omega) (by omega)
    rw [this]
    congr 1
    omega
  rw [hfirst]
  have hsplit2 : 33 - L = (32 - L) + 1 := by omega
  rw [hsplit2, Function.iterate_add_apply, Function.iterate_one]
  rw [nextDay_monthEnd]
  by_cases hm : m < 12
  · rw [if_pos hm]
    have hge2 := daysInMonth_ge y (m + 1)
    rw [addDays_within y (m + 1) (32 - L) 1 (by omega) (by omega)]
  · rw [if_neg hm]
    have hge2 := daysInMonth_ge (y + 1) 1
    rw [addDays_within (y + 1) 1 (32 - L) 1 (by omega) (by omega)]

/-- Concrete instantiation of `c8_first_of_next_month`: December 15 of 2024
rolls over to January 1 of 2025, and January 15 of 2024 advances to
February 1 of 2024. -/
theorem c8_first_of_next_month_witness :
    firstOfNextMonth ⟨2024, 12, 15⟩ = ⟨2025, 1, 1⟩ ∧
    firstOfNextMonth ⟨2024, 1, 15⟩ = ⟨2024, 2, 1⟩ := by
  constructor
  · have h := c8_first_of_next_month 2024 12 15 (by decide) (by decide)
    simpa using h
  · have h := c8_first_of_next_month 2024 1 15 (by decide) (by decide)
    simpa using h

/-- Leap years in the interval `[1, y - 1]` of the proleptic Gregorian
calendar. -/
def leapsBefore (y : ℕ) : ℕ := (y - 1) / 4 - (y - 1) / 100 + (y - 1) / 400

/-- Days strictly before January 1 of year `y`, counted from 0001-01-01. -/
def daysBeforeYear (y : ℕ) : ℕ := 365 * (y - 1) + leapsBefore y

/-- Days of year `y` strictly before the first of month `m`. -/
def daysBeforeMonth (y m : ℕ) : ℕ :=
  ((List.range (m - 1)).map (fun i => daysInMonth y (i + 1))).sum

/-- Python's `date.toordinal`: 0001-01-01 is ordinal 1. -/
def toOrdinalDate (d : Date) : ℕ :=
  daysBeforeYear d.year + daysBeforeMonth d.year d.month + d.day

/-- Seconds since the Unix epoch at midnight UTC of `d`: the meaning of the
ISO-8601 timestamp strings the source builds with `strftime` and parses
with `datetime.fromisoformat` (719163 is `toordinal` of 1970-01-01). -/
def epochOfDate (d : Date) : ℤ := 86400 * ((toOrdinalDate d : ℤ) - 719163)

/-- One flight session of the `/history` payload: `session.get('start')`
and `session.get('end')`, parsed to epoch seconds; `none` models a missing
field. -/
abbrev SessionRec := Option ℤ × Option ℤ

/-- The accumulation loop of `get_pilot_hours` (manager.py lines 115-130):
skip a session with a missing start or end, skip a disjoint session, and
otherwise add `min(end, range_end) - max(start, range_start)` seconds. -/
def sessionSeconds (startRange endRange : ℤ) (items : List SessionRec) : ℤ :=
  items.foldl
    (fun acc s =>
      match s with
      | (some st, some en) =>
          if en < startRange ∨ st > endRange then acc
          else acc + (min en endRange - max st startRange)
      | _ => acc)
    0

/-- The `/history` HTTP response as `get_pilot_hours` inspects it. -/
structure PilotResponse where
  status_code : ℕ
  items : List SessionRec

/-- manager.py lines 100-132: on a non-200 status the function returns the
plain value 0 (the observed behavior); otherwise the windowed session
seconds divided by 3600. -/
def get_pilot_hours (resp : PilotResponse) (startRange endRange : ℤ) : ℚ :=
  if resp.status_code ≠ 200 then 0
  else (sessionSeconds startRange endRange resp.items : ℚ) / 3600

/-- One ATC session of the `/atc` payload: the source reads
`session.get('connection_id', {})` and then `.get('start')` / `.get('end')`
on it; `none` at the outer level models a missing `connection_id`. -/
abbrev AtcSessionRec := Option SessionRec

/-- The accumulation loop of `get_atc_hours` (manager.py lines 150-167). -/
def atcSessionSeconds (startRange endRange : ℤ) (items : List AtcSessionRec) : ℤ :=
  items.foldl
    (fun acc s =>
      match s with
      | some (some st, some en) =>
          if en < startRange ∨ st > endRange then acc
          else acc + (min en endRange - max st startRange)
      | _ => acc)
    0

/-- The `/atc` HTTP response as `get_atc_hours` inspects it. -/
structure AtcResponse where
  status_code : ℕ
  items : List AtcSessionRec

/-- manager.py lines 135-168: 0 on a non-200 status, else windowed hours. -/
def get_atc_hours (resp : AtcResponse) (startRange endRange : ℤ) : ℚ :=
  if resp.status_code ≠ 200 then 0
  else (atcSessionSeconds startRange endRange resp.items : ℚ) / 3600

/-- Python's `round(x, 2)` modelled exactly over the rationals. -/
def round2 (q : ℚ) : ℚ := ((round (q * 100) : ℤ) : ℚ) / 100

/-- manager.py lines 93-97: fetch both figures and round each to two
decimal places. -/
def get_hours (p : PilotResponse) (a : AtcResponse) (startRange endRange : ℤ) :
    ℚ × ℚ :=
  (round2 (get_pilot_hours p startRange endRange),
   round2 (get_atc_hours a startRange endRange))

/-- Written from the spec's words (claim C5): one session's contribution is
`min(end, range_end) - max(start, range_start)`, counted as zero when
`end < range_start` or `start > range_end`, and a session with a missing
start or end is skipped. -/
def specSessionContribution (startRange endRange : ℤ) (s : SessionRec) : ℤ :=
  match s with
  | (some st, some en) =>
      if en < startRange ∨ st > endRange then 0
      else min en endRange - max st startRange
  | _ => 0

/-- Written from the spec's words (claim C5): the total hours are the sum
of the per-session contributions divided by 3600. -/
def specWindowHours (startRange endRange : ℤ) (items : List SessionRec) : ℚ :=
  ((items.map (specSessionContribution startRange endRange)).sum : ℚ) / 3600

lemma sessionFoldl_eq (startRange endRange : ℤ) :
    ∀ (items : List SessionRec) (acc : ℤ),
      List.foldl
        (fun acc s =>
          match s with
          | (some st, some en) =>
              if en < startRange ∨ st > endRange then acc
              else acc + (min en endRange - max st startRange)
          | _ => acc)
        acc items
      = acc + (items.map (specSessionContribution startRange endRange)).sum := by
  intro items
  induction items with
  | nil => intro acc; simp
  | cons s rest ih =>
    intro acc
    rcases s with ⟨os, oe⟩
    rcases os with _ | st
    · rcases oe with _ | en <;>
        · simp only [List.foldl_cons, List.map_cons, List.sum_cons,
            specSessionContribution, ih]
          ring
    · rcases oe with _ | en
      · simp only [List.foldl_cons, List.map_cons, List.sum_cons,
          specSessionContribution, ih]
        ring
      · simp only [List.foldl_cons, List.map_cons, List.sum_cons,
          specSessionContribution]
        by_cases hdis : en < startRange ∨ st > endRange
        · rw [if_pos hdis, if_pos hdis, ih]; ring
        · rw [if_neg hdis, if_neg hdis, ih]; ring

lemma atcSessionFoldl_eq (startRange endRange : ℤ) :
    ∀ (items : List AtcSessionRec) (acc : ℤ),
      List.foldl
        (fun acc s =>
          match s with
          | some (some st, some en) =>
              if en < startRange ∨ st > endRange then acc
              else acc + (min en endRange - max st startRange)
          | _ => acc)
        acc items
      = acc + (items.map (fun s =>
          specSessionContribution startRange endRange (s.getD (none, none)))).sum := by
  intro items
  induction items with
  | nil => intro acc; simp
  | cons s rest ih =>
    intro acc
    rw [List.foldl_cons, ih, List.map_cons, List.sum_cons]
    rcases s with _ | ⟨os, oe⟩
    · simp only [Option.getD, specSessionContribution]
      ring
    · rcases os with _ | st
      · rcases oe with _ | en <;>
          · simp only [Option.getD, specSessionContribution]
            ring
      · rcases oe with _ | en
        · simp only [Option.getD, specSessionContribution]
          ring
        · simp only [Option.getD, specSessionContribution]
          by_cases hdis : en < startRange ∨ st > endRange
          · rw [if_pos hdis, if_pos hdis]; ring
          · rw [if_neg hdis, if_neg hdis]; ring

/-- Claim C5: for every query window and every session sequence, the
accumulated hours of both session loops equal the sum over sessions of
`min(session.end, range_end) - max(session.start, range_start)` — zero for
disjoint sessions, malformed sessions skipped — divided by 3600; a session
fully inside the window counts fully (1.0 h example), a partially
overlapping one counts the intersection (0.5 h example), and a disjoint one
counts zero (0.0 h example). -/
theorem c5_interval_accumulation :
    (∀ (startRange endRange : ℤ) (items : List SessionRec),
        (sessionSeconds startRange endRange items : ℚ) / 3600 =
          specWindowHours startRange endRange items) ∧
    (∀ (startRange endRange : ℤ) (items : List AtcSessionRec),
        (atcSessionSeconds startRange endRange items : ℚ) / 3600 =
          specWindowHours startRange endRange
            (items.map (fun s => s.getD (none, none)))) ∧
    (sessionSeconds 32400 43200 [(some 36000, some 39600)] : ℚ) / 3600 = 1 ∧
    (sessionSeconds 32400 43200 [(some 28800, some 34200)] : ℚ) / 3600 = 1 / 2 ∧
    (sessionSeconds 32400 43200 [(some 3600, some 7200)] : ℚ) / 3600 = 0 := by
  refine ⟨?_, ?_, by norm_num [sessionSeconds], by norm_num [sessionSeconds],
    by norm_num [sessionSeconds]⟩
  · intro startRange endRange items
    unfold sessionSeconds specWindowHours
    rw [sessionFoldl_eq]
    norm_num
  · intro startRange endRange items
    unfold atcSessionSeconds specWindowHours
    rw [atcSessionFoldl_eq]
    rw [List.map_map]
    norm_num
    rfl

/-- Claim C2 (defect in the source, flagged by the spec itself): a failed
fetch does not produce an explicit "unavailable" result — both
`get_pilot_hours` and `get_atc_hours` return the plain value 0 on any
non-200 status, indistinguishable from a true zero-hours figure: on
identical session data, status 404 yields 0 while status 200 yields 10
hours. -/
theorem c2_failure_returns_zero :
    get_pilot_hours ⟨404, [(some 0, some 36000)]⟩ 0 86400 = 0 ∧
    get_atc_hours ⟨404, [some (some 0, some 36000)]⟩ 0 86400 = 0 ∧
    get_pilot_hours ⟨200, [(some 0, some 36000)]⟩ 0 86400 = 10 := by
  refine ⟨?_, ?_, ?_⟩ <;>
    norm_num [get_pilot_hours, get_atc_hours, sessionSeconds, atcSessionSeconds]

/-- One persisted row of the `LIST` table.  `list_join_date` carries the
result of parsing the stored join-date string with
`strptime('%d/%m/%Y %H:%M:%S')`: `none` models a malformed or missing
string, `some d` a string parsing to the calendar date `d` (the time of day
is irrelevant to every computation the source performs with it).
`pilot_hours` and `atc_hours` are the nullable REAL columns, and
`check_start_date` the nullable `three_month_check_start_date` column. -/
structure Member where
  cid : String
  list_join_date : Option Date
  pilot_hours : Option ℚ
  atc_hours : Option ℚ
  check_start_date : Option Date
deriving DecidableEq

/-- manager.py lines 232-238: the Due target — the first of the month three
months before `today`, with year rollover when the month number drops to
zero or below. -/
def targetDate (today : Date) : Date :=
  if today.month ≤ 3 then ⟨today.year - 1, today.month + 9, 1⟩
  else ⟨today.year, today.month - 3, 1⟩

/-- manager.py line 263: `datetime.today().replace(day=1)`. -/
def firstOfMonth (d : Date) : Date := ⟨d.year, d.month, 1⟩

/-- The selection of manager.py lines 246-252: a member is Due when its
stored `three_month_check_start_date` equals the target. -/
def isDue (today : Date) (m : Member) : Prop :=
  m.check_start_date = some (targetDate today)

instance (today : Date) (m : Member) : Decidable (isDue today m) := by
  unfold isDue
  infer_instance

/-- manager.py lines 260-269, the per-member body of the activity loop:
`fetched` is the `(pilot_hours, atc_hours)` pair returned by `get_hours`
for the member.  If the newly fetched pilot hours exceed the stored
baseline by at least 10, all of `pilot_hours`, `atc_hours` and
`three_month_check_start_date` are overwritten; otherwise the row is left
untouched.  A row whose stored `pilot_hours` is NULL surfaces as NaN in the
dataframe, the comparison is then false and the row is likewise left
untouched. -/
def activityStep (today : Date) (fetched : ℚ × ℚ) (m : Member) : Member :=
  match m.pilot_hours with
  | some stored =>
      if fetched.1 - stored ≥ 10 then
        { m with pilot_hours := some fetched.1,
                 atc_hours := some fetched.2,
                 check_start_date := some (firstOfMonth today) }
      else m
  | none => m

/-- manager.py lines 226-276 as a state transformer: every Due row is put
through `activityStep` with the hours `fetch` returns for its cid; every
other row is untouched. -/
def activity_checker (today : Date) (fetch : String → ℚ × ℚ)
    (state : List Member) : List Member :=
  state.map (fun m =>
    if m.check_start_date = some (targetDate today) then
      activityStep today (fetch m.cid) m
    else m)

/-- Claim C1: for a Due member, the evaluation compares the newly fetched
pilot hours against the stored baseline; when the delta is at least 10 it
overwrites the stored `pilot_hours`/`atc_hours` with the fetched pair and
sets `check_start_date` to the first of the current month, and when the
delta is below 10 it performs no mutation at all. -/
theorem c1_due_transition (today : Date) (fetched : ℚ × ℚ) (m : Member)
    (stored : ℚ) (hdue : isDue today m) (hp : m.pilot_hours = some stored) :
    (fetched.1 - stored ≥ 10 →
      activityStep today fetched m =
        { m with pilot_hours := some fetched.1,
                 atc_hours := some fetched.2,
                 check_start_date := some (firstOfMonth today) }) ∧
    (fetched.1 - stored < 10 → activityStep today fetched m = m) := by
  constructor
  · intro hge
    unfold activityStep
    rw [hp]
    simp only
    rw [if_pos hge]
  · intro hlt
    unfold activityStep
    rw [hp]
    simp only
    rw [if_neg (by linarith)]

/-- Concrete instantiation of `c1_due_transition`: a member Due on
2024-05-03 with baseline 20 and fetched pilot hours 30 transitions to
Active with the new baseline and `check_start_date` 2024-05-01; with
fetched pilot hours 29.9 it is left exactly as it was. -/
theorem c1_due_transition_witness :
    activityStep ⟨2024, 5, 3⟩ (30, 5)
        ⟨"100001", some ⟨2024, 1, 15⟩, some 20, some 0, some ⟨2024, 2, 1⟩⟩ =
      ⟨"100001", some ⟨2024, 1, 15⟩, some 30, some 5, some ⟨2024, 5, 1⟩⟩ ∧
    activityStep ⟨2024, 5, 3⟩ (299 / 10, 5)
        ⟨"100001", some ⟨2024, 1, 15⟩, some 20, some 0, some ⟨2024, 2, 1⟩⟩ =
      ⟨"100001", some ⟨2024, 1, 15⟩, some 20, some 0, some ⟨2024, 2, 1⟩⟩ := by
  constructor
  · have h := (c1_due_transition ⟨2024, 5, 3⟩ (30, 5)
      ⟨"100001", some ⟨2024, 1, 15⟩, some 20, some 0, some ⟨2024, 2, 1⟩⟩ 20
      (by decide) rfl).1 (by norm_num)
    simpa using h
  · have h := (c1_due_transition ⟨2024, 5, 3⟩ (299 / 10, 5)
      ⟨"100001", some ⟨2024, 1, 15⟩, some 20, some 0, some ⟨2024, 2, 1⟩⟩ 20
      (by decide) rfl).2 (by norm_num)
    simpa using h

/-- Claim C3 as stated is false: a member that fails the window keeps its
`check_start_date`, but the Due target is recomputed from `today` on every
run, so on a *later* run date whose month has advanced the member is no
longer selected as Due.  Concretely: a member with `check_start_date`
2024-02-01 is Due on 2024-05-03 and fails the window (delta 9.9 < 10)
with no mutation, yet on 2024-06-03 the target is 2024-03-01 and the
member is not Due. -/
theorem c3_due_again_counterexample :
    isDue ⟨2024, 5, 3⟩
        ⟨"100001", some ⟨2024, 1, 15⟩, some 20, some 0, some ⟨2024, 2, 1⟩⟩ ∧
    activityStep ⟨2024, 5, 3⟩ (299 / 10, 0)
        ⟨"100001", some ⟨2024, 1, 15⟩, some 20, some 0, some ⟨2024, 2, 1⟩⟩ =
      ⟨"100001", some ⟨2024, 1, 15⟩, some 20, some 0, some ⟨2024, 2, 1⟩⟩ ∧
    ¬ isDue ⟨2024, 6, 3⟩
        ⟨"100001", some ⟨2024, 1, 15⟩, some 20, some 0, some ⟨2024, 2, 1⟩⟩ := by
  refine ⟨by decide, ?_, by decide⟩
  unfold activityStep
  norm_num

/-- Claim C3 amended: a member that transitions to Inactive (delta < 10) is
left entirely unchanged — failing the window never reschedules
`check_start_date` forward — and it is therefore selected as Due on a
subsequent evaluation exactly when that evaluation's three-months-ago
target still equals the unchanged `check_start_date` (evaluations run in
the same calendar month); once the run date advances to a later month the
member is no longer selected. -/
theorem c3_inactive_unchanged (today : Date) (fetched : ℚ × ℚ) (m : Member)
    (stored : ℚ) (hdue : isDue today m) (hp : m.pilot_hours = some stored)
    (hlt : fetched.1 - stored < 10) :
    activityStep today fetched m = m ∧
    (∀ later : Date,
      isDue later (activityStep today fetched m) ↔
        targetDate later = targetDate today) := by
  have hunch : activityStep today fetched m = m := by
    unfold activityStep
    rw [hp]
    simp only
    rw [if_neg (by linarith)]
  refine ⟨hunch, ?_⟩
  intro later
  rw [hunch]
  unfold isDue at hdue ⊢
  rw [hdue]
  constructor
  · intro h
    exact (Option.some_injective _ h).symm
  · intro h
    rw [h]

/-- Concrete instantiation of `c3_inactive_unchanged` at the member of the
counterexample: unchanged row, still Due on 2024-05-20 (same target), not
Due on 2024-06-03. -/
theorem c3_inactive_unchanged_witness :
    activityStep ⟨2024, 5, 3⟩ (299 / 10, 0)
        ⟨"100001", some ⟨2024, 1, 15⟩, some 20, some 0, some ⟨2024, 2, 1⟩⟩ =
      ⟨"100001", some ⟨2024, 1, 15⟩, some 20, some 0, some ⟨2024, 2, 1⟩⟩ ∧
    (isDue ⟨2024, 5, 20⟩
        (activityStep ⟨2024, 5, 3⟩ (299 / 10, 0)
          ⟨"100001", some ⟨2024, 1, 15⟩, some 20, some 0, some ⟨2024, 2, 1⟩⟩) ↔
      targetDate ⟨2024, 5, 20⟩ = targetDate ⟨2024, 5, 3⟩) := by
  have h := c3_inactive_unchanged ⟨2024, 5, 3⟩ (299 / 10, 0)
    ⟨"100001", some ⟨2024, 1, 15⟩, some 20, some 0, some ⟨2024, 2, 1⟩⟩ 20
    (by decide) rfl (by norm_num)
  exact ⟨h.1, h.2 ⟨2024, 5, 20⟩⟩

/-- Python's `str.strip()` over the character list of a string: drop
whitespace from the front, then from the back. -/
def pyStrip (l : List Char) : List Char :=
  ((l.dropWhile Char.isWhitespace).reverse.dropWhile Char.isWhitespace).reverse

/-- manager.py lines 39-40: `astype(str).str.strip()` — the cid
normalization applied to both the roster frame and the persisted frame. -/
def normCid (s : String) : String := (pyStrip s.toList).asString

lemma dropWhile_dropWhile (p : Char → Bool) (l : List Char) :
    (l.dropWhile p).dropWhile p = l.dropWhile p := by
  induction l with
  | nil => simp
  | cons a t ih =>
    by_cases h : p a
    · simp [List.dropWhile_cons, h, ih]
    · simp [List.dropWhile_cons, h]

lemma dropWhile_fix_head (p : Char → Bool) (x : Char) (xs : List Char)
    (h : (x :: xs).dropWhile p = x :: xs) : p x = false := by
  by_contra hx
  have hx2 : p x = true := by
    cases hpx : p x
    · exact absurd hpx hx
    · rfl
  rw [List.dropWhile_cons, if_pos hx2] at h
  have hlen := (List.dropWhile_suffix (l := xs) p).sublist.length_le
  rw [h] at hlen
  simp at hlen

lemma dropWhile_fix_append (p : Char → Bool) (a t : List Char)
    (h : (a ++ t).dropWhile p = a ++ t) : a.dropWhile p = a := by
  cases a with
  | nil => simp
  | cons x xs =>
    have hx : p x = false := dropWhile_fix_head p x (xs ++ t) (by simpa using h)
    simp [List.dropWhile_cons, hx]

lemma pyStrip_idem (l : List Char) : pyStrip (pyStrip l) = pyStrip l := by
  unfold pyStrip
  set p := Char.isWhitespace
  set l1 := l.dropWhile p with hl1
  set r := l1.reverse.dropWhile p with hr
  have hfix1 : l1.dropWhile p = l1 := by
    rw [hl1, dropWhile_dropWhile]
  have hdecomp : l1 = r.reverse ++ (l1.reverse.takeWhile p).reverse := by
    have h := List.takeWhile_append_dropWhile (p := p) (l := l1.reverse)
    calc l1 = l1.reverse.reverse := by rw [List.reverse_reverse]
      _ = (l1.reverse.takeWhile p ++ l1.reverse.dropWhile p).reverse := by rw [h]
      _ = r.reverse ++ (l1.reverse.takeWhile p).reverse := by
            rw [List.reverse_append, hr]
  have hfixr : r.reverse.dropWhile p = r.reverse := by
    apply dropWhile_fix_append p r.reverse (l1.reverse.takeWhile p).reverse
    rw [← hdecomp]
    exact hfix1
  rw [hfixr, List.reverse_reverse]
  rw [hr, dropWhile_dropWhile]

lemma normCid_idem (s : String) : normCid (normCid s) = normCid s := by
  unfold normCid
  have h : (pyStrip s.toList).asString.toList = pyStrip s.toList := rfl
  rw [h, pyStrip_idem]

/-- One record of the roster CSV `update.csv`: a cid string and the raw
join-date string (carried here as its parse result, as in `Member`). -/
structure RosterEntry where
  cid : String
  join_date : Option Date
deriving DecidableEq

/-- manager.py lines 34-69 (`data_sync`) as a function of the roster
snapshot and the persisted rows.  Both cid columns are normCidd before
comparison; `to_add` is the roster entries whose normCidd cid matches no
normCidd persisted cid, `to_remove` the normCidd persisted cids that
match no roster cid.  Each cid in `to_remove` is passed to
`DELETE FROM LIST WHERE cid = ?` — which matches the *raw* stored cid
against the normCidd value — and each entry of `to_add` is inserted with
its normCidd cid and NULL hours and check-start date.  Returns
`(to_add, to_remove, new rows)`. -/
def rowOf (e : RosterEntry) : Member :=
  { cid := normCid e.cid, list_join_date := e.join_date,
    pilot_hours := none, atc_hours := none, check_start_date := none }

def data_sync (snap : List RosterEntry) (state : List Member) :
    List RosterEntry × List String × List Member :=
  let newCids := snap.map (fun e => normCid e.cid)
  let curCids := state.map (fun m => normCid m.cid)
  let to_add := snap.filter (fun e => decide (normCid e.cid ∉ curCids))
  let to_remove := curCids.filter (fun c => decide (c ∉ newCids))
  let afterDelete := state.filter (fun m => decide (m.cid ∉ to_remove))
  let added := to_add.map rowOf
  (to_add, to_remove, afterDelete ++ added)

/-- Claim C6 as stated is false: idempotence fails for a persisted member
set containing a cid that is not trim-normCidd.  With an empty roster and
one persisted row whose stored cid is `" 123 "`, the first run computes
`to_remove = ["123"]`, but the DELETE matches the normCidd value against
the raw stored cid and removes nothing; the second run therefore computes
the same non-empty `to_remove` again. -/
theorem c6_idempotence_counterexample :
    (data_sync []
      (data_sync [] [⟨" 123 ", none, none, none, none⟩]).2.2).2.1 = ["123"] := by
  decide

/-- Claim C6 amended: for every roster snapshot and every persisted member
set whose stored cids are trim-normCidd (as every row the reconciler
itself creates is), running `data_sync` once and then again with the
unchanged snapshot yields an empty `to_add` and an empty `to_remove` on the
second run, and the second run leaves the rows unchanged. -/
theorem c6_reconciler_idempotent (snap : List RosterEntry)
    (state : List Member) (hnorm : ∀ m ∈ state, normCid m.cid = m.cid) :
    (data_sync snap (data_sync snap state).2.2).1 = [] ∧
    (data_sync snap (data_sync snap state).2.2).2.1 = [] ∧
    (data_sync snap (data_sync snap state).2.2).2.2 =
      (data_sync snap state).2.2 := by
  classical
  -- notation for the first run
  set s1 := (data_sync snap state).2.2 with hs1
  have hs1eq : s1 =
      state.filter (fun m => decide (m.cid ∉
        (state.map (fun m => normCid m.cid)).filter
          (fun c => decide (c ∉ snap.map (fun e => normCid e.cid))))) ++
      (snap.filter (fun e => decide (normCid e.cid ∉
        state.map (fun m => normCid m.cid)))).map rowOf := by
    rw [hs1]
    rfl
  -- every surviving or inserted row has a normCidd cid in the roster
  have key : ∀ m ∈ s1, normCid m.cid = m.cid ∧
      m.cid ∈ snap.map (fun e => normCid e.cid) := by
    intro m hm
    rw [hs1eq] at hm
    rcases List.mem_append.1 hm with hkeep | hadd
    · have hmem := List.mem_filter.1 hkeep
      have hmState := hmem.1
      have hnotrem := of_decide_eq_true hmem.2
      have hcid : normCid m.cid = m.cid := hnorm m hmState
      refine ⟨hcid, ?_⟩
      by_contra hnotin
      apply hnotrem
      apply List.mem_filter.2
      refine ⟨?_, ?_⟩
      · rw [← hcid]
        exact List.mem_map.2 ⟨m, hmState, rfl⟩
      · exact decide_eq_true hnotin
    · rcases List.mem_map.1 hadd with ⟨e, hemem, hrow⟩
      have hecid : m.cid = normCid e.cid := by rw [← hrow]; rfl
      refine ⟨?_, ?_⟩
      · rw [hecid, normCid_idem]
      · rw [hecid]
        exact List.mem_map.2 ⟨e, List.mem_filter.1 hemem |>.1, rfl⟩
  -- second-run to_remove is empty
  have hrem2 : (data_sync snap s1).2.1 = [] := by
    show ((s1.map (fun m => normCid m.cid)).filter
      (fun c => decide (c ∉ snap.map (fun e => normCid e.cid)))) = []
    apply List.filter_eq_nil_iff.2
    intro c hc
    rcases List.mem_map.1 hc with ⟨m, hm, hcm⟩
    rcases key m hm with ⟨hcid, hin⟩
    simp only [decide_eq_true_eq, Decidable.not_not]
    rw [← hcm, hcid]
    simpa using hin
  -- second-run to_add is empty
  have hadd2 : (data_sync snap s1).1 = [] := by
    show (snap.filter (fun e => decide (normCid e.cid ∉
      s1.map (fun m => normCid m.cid)))) = []
    apply List.filter_eq_nil_iff.2
    intro e he
    simp only [decide_eq_true_eq, Decidable.not_not]
    by_cases hwas : normCid e.cid ∈ state.map (fun m => normCid m.cid)
    · -- the entry matched an existing row, which survived the delete
      rcases List.mem_map.1 hwas with ⟨m, hmState, hcm⟩
      have hcid : normCid m.cid = m.cid := hnorm m hmState
      have hkept : m ∈ s1 := by
        rw [hs1eq]
        apply List.mem_append.2
        left
        apply List.mem_filter.2
        refine ⟨hmState, decide_eq_true ?_⟩
        intro hmrem
        have hmem := List.mem_filter.1 hmrem
        have hnotnew := of_decide_eq_true hmem.2
        apply hnotnew
        rw [← hcid, hcm]
        exact List.mem_map.2 ⟨e, he, rfl⟩
      apply List.mem_map.2
      exact ⟨m, hkept, by rw [hcid, ← hcm]; exact hcid.symm⟩
    · -- the entry was added by the first run
      have hadded : rowOf e ∈ s1 := by
        rw [hs1eq]
        apply List.mem_append.2
        right
        apply List.mem_map.2
        refine ⟨e, List.mem_filter.2 ⟨he, decide_eq_true hwas⟩, rfl⟩
      apply List.mem_map.2
      exact ⟨_, hadded, by simp [rowOf, normCid_idem]⟩
  -- second run leaves the rows unchanged
  have hstate2 : (data_sync snap s1).2.2 = s1 := by
    show (s1.filter (fun m => decide (m.cid ∉ (data_sync snap s1).2.1))) ++
      ((data_sync snap s1).1.map rowOf) = s1
    rw [hrem2, hadd2]
    simp
  exact ⟨hadd2, hrem2, hstate2⟩

/-- Concrete instantiation of `c6_reconciler_idempotent`: one roster entry
and one already-reconciled row. -/
theorem c6_reconciler_idempotent_witness :
    (data_sync [⟨"7", none⟩]
      (data_sync [⟨"7", none⟩] [⟨"9", none, none, none, none⟩]).2.2).1 = [] ∧
    (data_sync [⟨"7", none⟩]
      (data_sync [⟨"7", none⟩] [⟨"9", none, none, none, none⟩]).2.2).2.1 = [] ∧
    (data_sync [⟨"7", none⟩]
      (data_sync [⟨"7", none⟩] [⟨"9", none, none, none, none⟩]).2.2).2.2 =
      (data_sync [⟨"7", none⟩] [⟨"9", none, none, none, none⟩]).2.2 := by
  exact c6_reconciler_idempotent [⟨"7", none⟩] [⟨"9", none, none, none, none⟩]
    (by intro m hm; simp at hm; rw [hm]; decide)

/-- manager.py lines 181-190, one iteration of the initialization loop: a
row whose `three_month_check_start_date` is NULL has its stored join-date
string parsed with `strptime('%d/%m/%Y %H:%M:%S')`; a malformed string
raises `ValueError` (modelled as `Except.error` carrying the cid), and
otherwise the row's check-start date becomes `firstOfNextMonth` of the
join date.  A row with a non-NULL check-start date is not selected. -/
def initRow (m : Member) : Except String Member :=
  if m.check_start_date = none then
    match m.list_join_date with
    | none => Except.error m.cid
    | some jd =>
        Except.ok { m with check_start_date := some (firstOfNextMonth jd) }
  else Except.ok m

/-- manager.py lines 172-192 (`update_null_check_start_dates`): the rows
are processed in order and the single `conn.commit()` sits after the loop,
so an uncaught `ValueError` aborts the run with no row update surviving —
the error outcome carries no partial state. -/
def update_null_check_start_dates : List Member → Except String (List Member)
  | [] => Except.ok []
  | m :: rest =>
      match initRow m with
      | Except.error e => Except.error e
      | Except.ok m2 =>
          match update_null_check_start_dates rest with
          | Except.error e => Except.error e
          | Except.ok rest2 => Except.ok (m2 :: rest2)

/-- Claim C9 (defect in the source): a malformed join-date string is not
skipped per-record — the uncaught `ValueError` aborts the whole
initialization pass.  On a state whose second row has a malformed join
date, the run fails with that row's error and the valid third row is never
initialized (no `Except.ok` state is produced at all). -/
theorem c9_malformed_join_date_aborts :
    update_null_check_start_dates
      [⟨"A", some ⟨2024, 1, 15⟩, none, none, none⟩,
       ⟨"B", none, none, none, none⟩,
       ⟨"C", some ⟨2024, 2, 2⟩, none, none, none⟩] = Except.error "B" := by
  rfl

/-- SQL three-valued truth values: a comparison against NULL is `unknown`,
and a row is selected only when the WHERE clause evaluates to `tv`. -/
inductive SQLTV
  | tv
  | fv
  | uv
deriving DecidableEq

/-- SQL `AND` over three-valued logic. -/
def sqlAnd : SQLTV → SQLTV → SQLTV
  | SQLTV.fv, _ => SQLTV.fv
  | _, SQLTV.fv => SQLTV.fv
  | SQLTV.tv, SQLTV.tv => SQLTV.tv
  | _, _ => SQLTV.uv

/-- SQL `OR` over three-valued logic. -/
def sqlOr : SQLTV → SQLTV → SQLTV
  | SQLTV.tv, _ => SQLTV.tv
  | _, SQLTV.tv => SQLTV.tv
  | SQLTV.fv, SQLTV.fv => SQLTV.fv
  | _, _ => SQLTV.uv

/-- SQL `column = 0` on a nullable column. -/
def sqlEqZero (a : Option ℚ) : SQLTV :=
  match a with
  | none => SQLTV.uv
  | some x => if x = 0 then SQLTV.tv else SQLTV.fv

/-- SQL `column > 0` on a nullable column. -/
def sqlGtZero (a : Option ℚ) : SQLTV :=
  match a with
  | none => SQLTV.uv
  | some x => if x > 0 then SQLTV.tv else SQLTV.fv

/-- SQL `column < c` on a nullable column. -/
def sqlLtConst (a : Option ℚ) (c : ℚ) : SQLTV :=
  match a with
  | none => SQLTV.uv
  | some x => if x < c then SQLTV.tv else SQLTV.fv

/-- The WHERE clause of manager.py lines 202-213:
`(atc_hours = 0 AND pilot_hours < 30) OR (atc_hours > 0 AND pilot_hours < 15)`,
evaluated in SQL three-valued logic. -/
def violatesWhere (m : Member) : SQLTV :=
  sqlOr (sqlAnd (sqlEqZero m.atc_hours) (sqlLtConst m.pilot_hours 30))
        (sqlAnd (sqlGtZero m.atc_hours) (sqlLtConst m.pilot_hours 15))

/-- manager.py lines 196-223 (`minimum_hours_checker`): the cids of the
rows the WHERE clause selects, in row order.  The function reads only. -/
def minimum_hours_checker (state : List Member) : List String :=
  (state.filter (fun m => decide (violatesWhere m = SQLTV.tv))).map
    (fun m => m.cid)

/-- Written from the spec's words (claim C7): a member with non-null hours
violates the policy when `atc_hours = 0` and `pilot_hours < 30`, or
`atc_hours > 0` and `pilot_hours < 15`; null hours are excluded from
evaluation entirely. -/
def specViolator (m : Member) : Bool :=
  match m.atc_hours, m.pilot_hours with
  | some a, some p => decide ((a = 0 ∧ p < 30) ∨ (0 < a ∧ p < 15))
  | _, _ => false

lemma violatesWhere_eq_spec (m : Member) :
    decide (violatesWhere m = SQLTV.tv) = specViolator m := by
  obtain ⟨c, jd, ph, ah, csd⟩ := m
  rcases ah with _ | a <;> rcases ph with _ | p <;>
      simp only [violatesWhere, specViolator, sqlEqZero, sqlGtZero,
        sqlLtConst] <;>
    first
      | rfl
      | (split_ifs <;> simp_all [sqlAnd, sqlOr])

/-- Claim C7: the compliance check returns exactly the cids of members
with non-null hours satisfying `(atc_hours = 0 ∧ pilot_hours < 30) ∨
(atc_hours > 0 ∧ pilot_hours < 15)`; members with a null hour column are
excluded from evaluation entirely (the NULL comparison makes the WHERE
clause unknown, not true), and no state is written.  In particular
`(atc=0, pilot=29)` and `(atc=6, pilot=14)` are violators while
`(atc=0, pilot=30)` and `(atc=6, pilot=15)` are compliant, and a
null-pilot-hours row is not reported. -/
theorem c7_minimum_hours_characterization :
    (∀ state : List Member,
      minimum_hours_checker state = (state.filter specViolator).map
        (fun m => m.cid)) ∧
    minimum_hours_checker
      [⟨"A", none, some 29, some 0, none⟩,
       ⟨"B", none, some 30, some 0, none⟩,
       ⟨"C", none, some 14, some 6, none⟩,
       ⟨"D", none, some 15, some 6, none⟩,
       ⟨"E", none, none, some 0, none⟩,
       ⟨"F", none, some 5, none, none⟩] = ["A", "C"] := by
  constructor
  · intro state
    unfold minimum_hours_checker
    congr 1
    apply List.filter_congr
    intro m _
    exact violatesWhere_eq_spec m
  · decide

/-- The lower bound of the all-time window of `update_hours` (manager.py
line 82): the parse of "1995-01-01T00:00:00+00:00". -/
def allTimeStart : ℤ := epochOfDate ⟨1995, 1, 1⟩

/-- The upper bound of the all-time window of `update_hours` (manager.py
line 82): the parse of "2100-01-01T00:00:00+00:00". -/
def allTimeEnd : ℤ := epochOfDate ⟨2100, 1, 1⟩

/-- manager.py lines 79-89, the per-row body of `update_hours` (reached
through `update_null_hours` for rows with a NULL hour column): the row's
hours are overwritten with the `get_hours` figures for the all-time
window. -/
def update_hours_step (p : PilotResponse) (a : AtcResponse) (m : Member) :
    Member :=
  { m with pilot_hours := some (get_hours p a allTimeStart allTimeEnd).1,
           atc_hours := some (get_hours p a allTimeStart allTimeEnd).2 }

/-- Start of the activity evaluation window (manager.py line 240): the Due
target date at midnight. -/
def evalStart (today : Date) : ℤ := epochOfDate (targetDate today)

/-- End of the activity evaluation window (manager.py lines 242-244): one
second before the first of the current month. -/
def evalEnd (today : Date) : ℤ := epochOfDate (firstOfMonth today) - 1

/-- manager.py line 258 composed with lines 260-269: the activity loop
fetches the member's hours over `[evalStart, evalEnd]` and feeds the pair
to the transition body. -/
def activity_eval (today : Date) (p : PilotResponse) (a : AtcResponse)
    (m : Member) : Member :=
  activityStep today (get_hours p a (evalStart today) (evalEnd today)) m

/-- Claim C10 (implicit): stored hour baselines are not homogeneous.  The
initial fill stores the rounded all-time totals (window 1995-01-01 to
2100-01-01), whereas an Active transition overwrites the stored hours with
the rounded totals of the just-evaluated window `[targetDate today,
one second before the first of today's month]` only; there are session
histories on which the two figures differ, so the next Due delta compares
one windowed figure against another windowed figure rather than against a
lifetime total. -/
theorem c10_window_heterogeneity :
    (∀ (p : PilotResponse) (a : AtcResponse) (m : Member),
        (update_hours_step p a m).pilot_hours =
          some (round2 (get_pilot_hours p allTimeStart allTimeEnd)) ∧
        (update_hours_step p a m).atc_hours =
          some (round2 (get_atc_hours a allTimeStart allTimeEnd))) ∧
    (∀ (today : Date) (p : PilotResponse) (a : AtcResponse) (m : Member)
        (stored : ℚ), m.pilot_hours = some stored →
        10 ≤ (get_hours p a (evalStart today) (evalEnd today)).1 - stored →
        (activity_eval today p a m).pilot_hours =
          some (round2 (get_pilot_hours p (evalStart today) (evalEnd today))) ∧
        (activity_eval today p a m).atc_hours =
          some (round2 (get_atc_hours a (evalStart today) (evalEnd today))) ∧
        (activity_eval today p a m).check_start_date =
          some (firstOfMonth today)) ∧
    (∃ p : PilotResponse,
        round2 (get_pilot_hours p allTimeStart allTimeEnd) ≠
          round2 (get_pilot_hours p
            (evalStart ⟨2024, 5, 3⟩) (evalEnd ⟨2024, 5, 3⟩))) := by
  refine ⟨?_, ?_, ?_⟩
  · intro p a m
    exact ⟨rfl, rfl⟩
  · intro today p a m stored hp hd
    unfold activity_eval activityStep
    rw [hp]
    simp only
    rw [if_pos hd]
    exact ⟨rfl, rfl, rfl⟩
  · refine ⟨⟨200, [(some 1577836800, some 1577923200)]⟩, ?_⟩
    have hs1 : sessionSeconds allTimeStart allTimeEnd
        [(some 1577836800, some 1577923200)] = 86400 := by decide
    have hs2 : sessionSeconds (evalStart ⟨2024, 5, 3⟩) (evalEnd ⟨2024, 5, 3⟩)
        [(some 1577836800, some 1577923200)] = 0 := by decide
    have h1 : get_pilot_hours ⟨200, [(some 1577836800, some 1577923200)]⟩
        allTimeStart allTimeEnd = 24 := by
      unfold get_pilot_hours
      norm_num [hs1]
    have h2 : get_pilot_hours ⟨200, [(some 1577836800, some 1577923200)]⟩
        (evalStart ⟨2024, 5, 3⟩) (evalEnd ⟨2024, 5, 3⟩) = 0 := by
      unfold get_pilot_hours
      norm_num [hs2]
    rw [h1, h2]
    unfold round2
    have e1 : ((24 : ℚ) * 100) = ((2400 : ℤ) : ℚ) := by norm_num
    have e2 : ((0 : ℚ) * 100) = ((0 : ℤ) : ℚ) := by norm_num
    rw [e1, e2, round_intCast, round_intCast]
    norm_num

/-- Concrete instantiation of `c10_window_heterogeneity`: on 2024-05-03 a
Due member with baseline 5 and one 20-hour session inside the evaluation
window transitions to Active with the windowed figures stored. -/
theorem c10_window_heterogeneity_witness :
    (activity_eval ⟨2024, 5, 3⟩ ⟨200, [(some 1709251200, some 1709323200)]⟩
        ⟨200, []⟩ ⟨"100001", none, some 5, some 0, some ⟨2024, 2, 1⟩⟩).pilot_hours =
      some (round2 (get_pilot_hours ⟨200, [(some 1709251200, some 1709323200)]⟩
        (evalStart ⟨2024, 5, 3⟩) (evalEnd ⟨2024, 5, 3⟩))) ∧
    (activity_eval ⟨2024, 5, 3⟩ ⟨200, [(some 1709251200, some 1709323200)]⟩
        ⟨200, []⟩ ⟨"100001", none, some 5, some 0, some ⟨2024, 2, 1⟩⟩).atc_hours =
      some (round2 (get_atc_hours ⟨200, []⟩
        (evalStart ⟨2024, 5, 3⟩) (evalEnd ⟨2024, 5, 3⟩))) ∧
    (activity_eval ⟨2024, 5, 3⟩ ⟨200, [(some 1709251200, some 1709323200)]⟩
        ⟨200, []⟩ ⟨"100001", none, some 5, some 0,
          some ⟨2024, 2, 1⟩⟩).check_start_date =
      some (firstOfMonth ⟨2024, 5, 3⟩) := by
  have hs : sessionSeconds (evalStart ⟨2024, 5, 3⟩) (evalEnd ⟨2024, 5, 3⟩)
      [(some 1709251200, some 1709323200)] = 72000 := by decide
  have hp : get_pilot_hours ⟨200, [(some 1709251200, some 1709323200)]⟩
      (evalStart ⟨2024, 5, 3⟩) (evalEnd ⟨2024, 5, 3⟩) = 20 := by
    unfold get_pilot_hours
    norm_num [hs]
  have hg : (10 : ℚ) ≤ (get_hours ⟨200, [(some 1709251200, some 1709323200)]⟩
      ⟨200, []⟩ (evalStart ⟨2024, 5, 3⟩) (evalEnd ⟨2024, 5, 3⟩)).1 - 5 := by
    have hfst : (get_hours ⟨200, [(some 1709251200, some 1709323200)]⟩
        ⟨200, []⟩ (evalStart ⟨2024, 5, 3⟩) (evalEnd ⟨2024, 5, 3⟩)).1 =
        round2 (get_pilot_hours ⟨200, [(some 1709251200, some 1709323200)]⟩
          (evalStart ⟨2024, 5, 3⟩) (evalEnd ⟨2024, 5, 3⟩)) := rfl
    rw [hfst, hp]
    unfold round2
    have e : ((20 : ℚ) * 100) = ((2000 : ℤ) : ℚ) := by norm_num
    rw [e, round_intCast]
    norm_num
  exact c10_window_heterogeneity.2.1 ⟨2024, 5, 3⟩
    ⟨200, [(some 1709251200, some 1709323200)]⟩ ⟨200, []⟩
    ⟨"100001", none, some 5, some 0, some ⟨2024, 2, 1⟩⟩ 5 rfl hg

/-- Lexicographic strict order on calendar dates. -/
def dateLt (a b : Date) : Prop :=
  a.year < b.year ∨ (a.year = b.year ∧
    (a.month < b.month ∨ (a.month = b.month ∧ a.day < b.day)))

/-- The shape part of the claimed invariant: a stored check-start date is
NULL or falls on day 1. -/
def dayOneOrNull : Option Date → Prop
  | none => True
  | some c => c.day = 1

/-- The monotonicity part of the claimed invariant: one row write keeps a
non-null check-start date or replaces it with a strictly later day-1 date,
and never sets it back to NULL. -/
def checkAdvances : Option Date → Option Date → Prop
  | none, _ => True
  | some c, some c2 => c = c2 ∨ (dateLt c c2 ∧ c2.day = 1)
  | some _, none => False

/-- Both invariant parts for one row write. -/
def rowAdv (m m2 : Member) : Prop :=
  checkAdvances m.check_start_date m2.check_start_date ∧
  (dayOneOrNull m.check_start_date → dayOneOrNull m2.check_start_date)

lemma checkAdvances_refl (o : Option Date) : checkAdvances o o := by
  cases o with
  | none => trivial
  | some c => exact Or.inl rfl

lemma rowAdv_refl (m : Member) : rowAdv m m :=
  ⟨checkAdvances_refl _, fun h => h⟩

lemma targetDate_lt_firstOfMonth (today : Date) (hm1 : 1 ≤ today.month)
    (hm2 : today.month ≤ 12) (hy : 1 ≤ today.year) :
    dateLt (targetDate today) (firstOfMonth today) := by
  unfold targetDate firstOfMonth dateLt
  by_cases h : today.month ≤ 3
  · rw [if_pos h]
    left
    simp only
    omega
  · rw [if_neg h]
    right
    refine ⟨rfl, Or.inl ?_⟩
    simp only
    omega

lemma rowAdv_initRow (m m2 : Member) (h : initRow m = Except.ok m2) :
    rowAdv m m2 := by
  unfold initRow at h
  by_cases hc : m.check_start_date = none
  · rw [if_pos hc] at h
    cases hj : m.list_join_date with
    | none => rw [hj] at h; exact absurd h (by simp)
    | some jd =>
        rw [hj] at h
        cases h
        constructor
        · show checkAdvances m.check_start_date (some (firstOfNextMonth jd))
          rw [hc]
          trivial
        · intro _
          show dayOneOrNull (some (firstOfNextMonth jd))
          exact rfl
  · rw [if_neg hc] at h
    have hm2 : m2 = m := by cases h; rfl
    rw [hm2]
    exact rowAdv_refl m

lemma updateNull_forall₂ : ∀ (state s2 : List Member),
    update_null_check_start_dates state = Except.ok s2 →
      List.Forall₂ rowAdv state s2 := by
  intro state
  induction state with
  | nil =>
      intro s2 h
      unfold update_null_check_start_dates at h
      cases h
      exact List.Forall₂.nil
  | cons m rest ih =>
      intro s2 h
      unfold update_null_check_start_dates at h
      cases hm : initRow m with
      | error e => rw [hm] at h; exact absurd h (by simp)
      | ok m2 =>
          rw [hm] at h
          cases hr : update_null_check_start_dates rest with
          | error e => rw [hr] at h; exact absurd h (by simp)
          | ok rest2 =>
              rw [hr] at h
              have hs2 : s2 = m2 :: rest2 := by cases h; rfl
              rw [hs2]
              exact List.Forall₂.cons (rowAdv_initRow m m2 hm) (ih rest2 hr)

/-- Claim C4: every operation that writes a member row preserves the
check-start-date invariant.  `data_sync` creates rows with a NULL
check-start date and never touches the field of a kept row;
`update_hours_step` leaves the field unchanged;
`update_null_check_start_dates` initializes NULL fields to a day-1 date
and keeps the rest; and the activity pass keeps every field or advances a
Due row's date to the strictly later first of the current month — never
backward, never to a non-first-of-month date, never back to NULL. -/
theorem c4_check_start_date_invariant :
    (∀ (snap : List RosterEntry) (state : List Member) (m2 : Member),
        m2 ∈ (data_sync snap state).2.2 →
          m2 ∈ state ∨ m2.check_start_date = none) ∧
    (∀ (p : PilotResponse) (a : AtcResponse) (m : Member),
        (update_hours_step p a m).check_start_date = m.check_start_date) ∧
    (∀ (state s2 : List Member),
        update_null_check_start_dates state = Except.ok s2 →
          List.Forall₂ rowAdv state s2) ∧
    (∀ (today : Date) (fetch : String → ℚ × ℚ) (state : List Member),
        1 ≤ today.month → today.month ≤ 12 → 1 ≤ today.year →
          List.Forall₂ rowAdv state (activity_checker today fetch state)) := by
  refine ⟨?_, ?_, updateNull_forall₂, ?_⟩
  · intro snap state m2 hmem
    have hmem2 : m2 ∈ state.filter (fun m => decide (m.cid ∉
        (state.map (fun m => normCid m.cid)).filter
          (fun c => decide (c ∉ snap.map (fun e => normCid e.cid))))) ++
        (snap.filter (fun e => decide (normCid e.cid ∉
          state.map (fun m => normCid m.cid)))).map rowOf := hmem
    rcases List.mem_append.1 hmem2 with hkeep | hadd
    · exact Or.inl (List.mem_filter.1 hkeep).1
    · rcases List.mem_map.1 hadd with ⟨e, _, hrow⟩
      right
      rw [← hrow]
      rfl
  · intro p a m
    rfl
  · intro today fetch state hm1 hm2 hy
    unfold activity_checker
    rw [List.forall₂_map_right_iff]
    apply List.forall₂_same.2
    intro m _
    by_cases hdue : m.check_start_date = some (targetDate today)
    · rw [if_pos hdue]
      unfold activityStep
      cases hp : m.pilot_hours with
      | none => exact rowAdv_refl m
      | some stored =>
          simp only
          by_cases hd : (fetch m.cid).1 - stored ≥ 10
          · rw [if_pos hd]
            constructor
            · rw [hdue]
              exact Or.inr ⟨targetDate_lt_firstOfMonth today hm1 hm2 hy, rfl⟩
            · intro _
              exact rfl
          · rw [if_neg hd]
            exact rowAdv_refl m
    · rw [if_neg hdue]
      exact rowAdv_refl m

set_option maxRecDepth 4000 in
/-- Concrete instantiation of `c4_check_start_date_invariant`: a kept row
stays in the store, an hour update keeps the field, an initialization run
relates the rows pointwise, and an activity pass on 2024-05-03 relates the
rows pointwise. -/
theorem c4_check_start_date_invariant_witness :
    ((⟨"9", none, none, none, some ⟨2024, 2, 1⟩⟩ : Member) ∈
        ([⟨"9", none, none, none, some ⟨2024, 2, 1⟩⟩] : List Member) ∨
      (⟨"9", none, none, none, some ⟨2024, 2, 1⟩⟩ : Member).check_start_date =
        none) ∧
    (update_hours_step ⟨200, []⟩ ⟨200, []⟩
        ⟨"9", none, none, none, some ⟨2024, 2, 1⟩⟩).check_start_date =
      (⟨"9", none, none, none, some ⟨2024, 2, 1⟩⟩ : Member).check_start_date ∧
    List.Forall₂ rowAdv [⟨"A", some ⟨2024, 1, 15⟩, none, none, none⟩]
      [⟨"A", some ⟨2024, 1, 15⟩, none, none, some ⟨2024, 2, 1⟩⟩] ∧
    List.Forall₂ rowAdv [⟨"B", none, some 20, some 0, some ⟨2024, 2, 1⟩⟩]
      (activity_checker ⟨2024, 5, 3⟩ (fun _ => (30, 5))
        [⟨"B", none, some 20, some 0, some ⟨2024, 2, 1⟩⟩]) := by
  refine ⟨?_, ?_, ?_, ?_⟩
  · exact c4_check_start_date_invariant.1 [⟨"9", none⟩]
      [⟨"9", none, none, none, some ⟨2024, 2, 1⟩⟩]
      ⟨"9", none, none, none, some ⟨2024, 2, 1⟩⟩ (by decide)
  · exact c4_check_start_date_invariant.2.1 ⟨200, []⟩ ⟨200, []⟩
      ⟨"9", none, none, none, some ⟨2024, 2, 1⟩⟩
  · exact c4_check_start_date_invariant.2.2.1
      [⟨"A", some ⟨2024, 1, 15⟩, none, none, none⟩]
      [⟨"A", some ⟨2024, 1, 15⟩, none, none, some ⟨2024, 2, 1⟩⟩] (by rfl)
  · exact c4_check_start_date_invariant.2.2.2 ⟨2024, 5, 3⟩ (fun _ => (30, 5))
      [⟨"B", none, some 20, some 0, some ⟨2024, 2, 1⟩⟩]
      (by decide) (by decide) (by decide)
